import Mathlib

/-!
Verification of the claude-code-slack-bot core against its specification.

The development shallowly embeds the TypeScript sources:
  * `src/src/message-manager.ts` (class `MessageManager`, the expandable
    tool-output variant): state `MMState`, operations `updateTaskList`,
    `updateToolOutput`, `buildToolOutputBlocks`, `postTextMessage`,
    `updateStatus`.
  * `src/src/config.ts` (`isToolAllowed`): pattern matching over the
    allow-list, with strings embedded as `List Char`.
  * `src/unnamed/part_003` (class `SlackHandler`): the approval gate
    (`createPermissionHandler` and the `approve_tool` / `deny_tool` /
    timeout terminators), the task-progress reaction
    (`updateTaskProgressReaction`), and the per-session cancellation
    behaviour of `handleMessage`.

External Slack calls are modelled as an explicit trace of `SlackEffect`
values; results of fallible external calls (`chat.update` success,
`chat.postMessage` returning a `ts`) enter through a `RenderEnv`
parameter, one per call site that an operation can reach.
Mutable `Map`s keyed by session key or approval id are embedded as
functions into `Option`.
-/

namespace SlackBot

/-- Association-map update: Slack-bot `Map.set(k, v)`. -/
def mapSet {α : Type} (m : String → Option α) (k : String) (v : α) : String → Option α :=
  fun k2 => if k2 = k then some v else m k2

/-- Association-map removal: Slack-bot `Map.delete(k)`. -/
def mapDel {α : Type} (m : String → Option α) (k : String) : String → Option α :=
  fun k2 => if k2 = k then none else m k2

/-- One Slack Block Kit block, as produced by `buildToolOutputBlocks`:
either a `section` block with mrkdwn text, or an `actions` block holding a
single button (label, `action_id`, `value`). -/
inductive SlackBlock where
  | sectionBlock (text : String)
  | actionsBlock (buttonLabel : String) (actionId : String) (value : String)
  deriving Repr, DecidableEq

/-- An external Slack Web-API call issued by the core (the call itself;
whether it succeeded is decided by the environment). `blocks = none`
models a call made without a `blocks` argument. -/
inductive SlackEffect where
  | postMessage (channel : String) (threadTs : String) (text : String)
      (blocks : Option (List SlackBlock))
  | updateMessage (channel : String) (ts : Nat) (text : String)
      (blocks : Option (List SlackBlock))
  | deleteMessage (channel : String) (ts : Nat)
  deriving Repr, DecidableEq

/-- Whether an effect is a `chat.delete` call. -/
def SlackEffect.isDelete : SlackEffect → Bool
  | .deleteMessage _ _ => true
  | _ => false

/-- Embedding of `interface MessageWindow` of message-manager.ts: the external message
reference (`ts`, embedded as `Nat`) plus bookkeeping fields. `channel` and
`threadTs` are only populated by the tool-output create path, as in the
source. Timestamps (`lastUpdated`) are `Nat`s supplied by the environment. -/
structure MessageWindow where
  ts : Nat
  lastUpdated : Nat
  channel : Option String := none
  threadTs : Option String := none
  deriving Repr, DecidableEq

/-- The mutable per-session maps of `class MessageManager`
(message-manager.ts, the expandable tool-output variant). -/
structure MMState where
  taskListMessages : String → Option MessageWindow
  toolOutputMessages : String → Option MessageWindow
  statusMessages : String → Option MessageWindow
  accumulatedToolOutput : String → Option (List String)
  textMessageAfterTool : String → Option Bool
  toolOutputExpanded : String → Option Bool

/-- A `MessageManager` with all maps empty (freshly constructed). -/
def emptyMM : MMState :=
  { taskListMessages := fun _ => none
    toolOutputMessages := fun _ => none
    statusMessages := fun _ => none
    accumulatedToolOutput := fun _ => none
    textMessageAfterTool := fun _ => none
    toolOutputExpanded := fun _ => none }

/-- Results of the external calls an operation may make: whether a
`chat.update` at this call succeeds, which `ts` (if any) a
`chat.postMessage` returns, and the current time for `new Date()`. -/
structure RenderEnv where
  updateOk : Bool
  postTs : Option Nat
  now : Nat
  deriving Repr, DecidableEq

/-- Constant `recentCount` of `buildToolOutputBlocks`: number of most recent tool
calls always shown in full. -/
def recentCount : Nat := 3

/-- Method `buildToolOutputBlocks(sessionKey, accumulated)` of message-manager.ts:
below-or-at the recency threshold the whole sequence is one section block;
above it, the older part is either shown in full followed by a
"Hide Older Calls" button (expanded) or replaced by a
"Show N More Tool Calls" button (collapsed), with the last `recentCount`
entries always rendered after it. -/
def buildToolOutputBlocks (st : MMState) (sessionKey : String)
    (accumulated : List String) : String × List SlackBlock :=
  let isExpanded := (st.toolOutputExpanded sessionKey).getD false
  if accumulated.length ≤ recentCount then
    ("Tool output", [SlackBlock.sectionBlock (String.intercalate "\n" accumulated)])
  else
    -- recent = accumulated.slice(-recentCount); older = accumulated.slice(0, -recentCount)
    let recent := accumulated.drop (accumulated.length - recentCount)
    let older := accumulated.take (accumulated.length - recentCount)
    if isExpanded then
      ("Tool output",
        [SlackBlock.sectionBlock (String.intercalate "\n" older),
         SlackBlock.actionsBlock "Hide Older Calls" "toggle_tool_history" sessionKey,
         SlackBlock.sectionBlock (String.intercalate "\n" recent)])
    else
      ("Tool output",
        [SlackBlock.actionsBlock
           ("Show " ++ toString older.length ++ " More Tool Calls")
           "toggle_tool_history" sessionKey,
         SlackBlock.sectionBlock (String.intercalate "\n" recent)])

/-- Method `updateTaskList` of message-manager.ts: update in place when a window
exists; on update failure fall back to posting a new message and
re-registering; otherwise create and register a new message. -/
def updateTaskList (st : MMState) (env : RenderEnv) (sessionKey content channel threadTs : String) :
    MMState × List SlackEffect :=
  match st.taskListMessages sessionKey with
  | some existing =>
    if env.updateOk then
      ({ st with taskListMessages :=
           mapSet st.taskListMessages sessionKey { existing with lastUpdated := env.now } },
       [SlackEffect.updateMessage channel existing.ts content none])
    else
      -- catch: warn, then create a new message and re-register on success
      match env.postTs with
      | some newTs =>
        ({ st with taskListMessages :=
             mapSet st.taskListMessages sessionKey { ts := newTs, lastUpdated := env.now } },
         [SlackEffect.updateMessage channel existing.ts content none,
          SlackEffect.postMessage channel threadTs content none])
      | none =>
        (st,
         [SlackEffect.updateMessage channel existing.ts content none,
          SlackEffect.postMessage channel threadTs content none])
  | none =>
    match env.postTs with
    | some newTs =>
      ({ st with taskListMessages :=
           mapSet st.taskListMessages sessionKey { ts := newTs, lastUpdated := env.now } },
       [SlackEffect.postMessage channel threadTs content none])
    | none => (st, [SlackEffect.postMessage channel threadTs content none])

/-- Method `updateToolOutput` of message-manager.ts: accumulate the summary; if a
window exists and text interrupted since the last tool render, drop the old
slot record, reset the accumulator to the new summary alone and clear the
expansion state (the "bump"); then either update the existing message in
place (failure only logged) or post and register a new one; finally clear
the interrupted-by-text flag. -/
def updateToolOutput (st : MMState) (env : RenderEnv) (sessionKey toolContent channel threadTs : String) :
    MMState × List SlackEffect :=
  let accumulated := ((st.accumulatedToolOutput sessionKey).getD []) ++ [toolContent]
  let st1 := { st with accumulatedToolOutput := mapSet st.accumulatedToolOutput sessionKey accumulated }
  let existing := st1.toolOutputMessages sessionKey
  let shouldBump := existing.isSome && (st1.textMessageAfterTool sessionKey).getD false
  let st2 :=
    if shouldBump then
      { st1 with
          toolOutputMessages := mapDel st1.toolOutputMessages sessionKey,
          accumulatedToolOutput := mapSet st1.accumulatedToolOutput sessionKey [toolContent],
          toolOutputExpanded := mapDel st1.toolOutputExpanded sessionKey }
    else st1
  let currentAccumulated := (st2.accumulatedToolOutput sessionKey).getD []
  let built := buildToolOutputBlocks st2 sessionKey currentAccumulated
  match existing, shouldBump with
  | some w, false =>
    -- update in place (tool is already at bottom)
    if env.updateOk then
      ({ st2 with
           toolOutputMessages :=
             mapSet st2.toolOutputMessages sessionKey { w with lastUpdated := env.now },
           textMessageAfterTool := mapSet st2.textMessageAfterTool sessionKey false },
       [SlackEffect.updateMessage channel w.ts built.1 (some built.2)])
    else
      -- catch: only logged
      ({ st2 with textMessageAfterTool := mapSet st2.textMessageAfterTool sessionKey false },
       [SlackEffect.updateMessage channel w.ts built.1 (some built.2)])
  | _, _ =>
    -- create new message (first time or after bump)
    match env.postTs with
    | some newTs =>
      ({ st2 with
           toolOutputMessages :=
             mapSet st2.toolOutputMessages sessionKey
               { ts := newTs, lastUpdated := env.now, channel := some channel, threadTs := some threadTs },
           textMessageAfterTool := mapSet st2.textMessageAfterTool sessionKey false },
       [SlackEffect.postMessage channel threadTs built.1 (some built.2)])
    | none =>
      ({ st2 with textMessageAfterTool := mapSet st2.textMessageAfterTool sessionKey false },
       [SlackEffect.postMessage channel threadTs built.1 (some built.2)])

/-- Method `postTextMessage` of message-manager.ts: always posts a new message,
registers no window, and sets the interrupted-by-text flag. -/
def postTextMessage (st : MMState) (sessionKey content channel threadTs : String) :
    MMState × List SlackEffect :=
  ({ st with textMessageAfterTool := mapSet st.textMessageAfterTool sessionKey true },
   [SlackEffect.postMessage channel threadTs content none])

/-- Method `updateStatus` of message-manager.ts: update in place when a window
exists (failure only logged, no fallback); otherwise create and register a
new message. -/
def updateStatus (st : MMState) (env : RenderEnv) (sessionKey content channel threadTs : String) :
    MMState × List SlackEffect :=
  match st.statusMessages sessionKey with
  | some existing =>
    if env.updateOk then
      ({ st with statusMessages :=
           mapSet st.statusMessages sessionKey { existing with lastUpdated := env.now } },
       [SlackEffect.updateMessage channel existing.ts content none])
    else
      -- catch: only logged
      (st, [SlackEffect.updateMessage channel existing.ts content none])
  | none =>
    match env.postTs with
    | some newTs =>
      ({ st with statusMessages :=
           mapSet st.statusMessages sessionKey { ts := newTs, lastUpdated := env.now } },
       [SlackEffect.postMessage channel threadTs content none])
    | none => (st, [SlackEffect.postMessage channel threadTs content none])

/-- The `input: Record<string, unknown>` of a tool invocation, restricted
to what the core reads: the optional `command` field (a string, embedded as
`List Char`) and the remaining fields, which the allow-list check never
inspects. -/
structure ToolInput where
  command : Option (List Char)
  otherFields : List (String × String)
  deriving Repr, DecidableEq

/-- Characters of `"Bash:"`. -/
def bashColonChars : List Char := ['B', 'a', 's', 'h', ':']

/-- Characters of `"Bash"`. -/
def bashToolChars : List Char := ['B', 'a', 's', 'h']

/-- Characters of `" *"`. -/
def starSuffixChars : List Char := [' ', '*']

/-- Characters of `"mcp__*"`. -/
def mcpStarChars : List Char := ['m', 'c', 'p', '_', '_', '*']

/-- Characters of `"mcp__"`. -/
def mcpUnderChars : List Char := ['m', 'c', 'p', '_', '_']

/-- The loop body of `isToolAllowed` in config.ts, for one allow-list
pattern: exact tool-name match, `Bash:<cmd>` patterns (with `" *"` suffix
meaning prefix-at-a-word-boundary match of `input.command`, missing command
treated as the empty string), and the `mcp__*` wildcard. -/
def matchesAllowPattern (pattern toolName : List Char) (input : ToolInput) : Bool :=
  (pattern == toolName)
  || (bashColonChars.isPrefixOf pattern && toolName == bashToolChars
      && (let cmdPattern := pattern.drop 5
          let command := input.command.getD []
          if starSuffixChars.isSuffixOf cmdPattern then
            let cmdStem := cmdPattern.take (cmdPattern.length - 2)
            (cmdStem ++ [' ']).isPrefixOf command || command == cmdStem
          else cmdPattern == command))
  || (pattern == mcpStarChars && mcpUnderChars.isPrefixOf toolName)

/-- Function `isToolAllowed(toolName, input)` of config.ts, with the configured
allow-list passed explicitly. -/
def isToolAllowed (allowedTools : List (List Char)) (toolName : List Char)
    (input : ToolInput) : Bool :=
  allowedTools.any (fun pattern => matchesAllowPattern pattern toolName input)

/-- A resolution value delivered to a suspended `canUseTool` continuation
(`PermissionResponse` of part_003). -/
inductive PermissionResponse where
  | allow (updatedInput : ToolInput)
  | deny (message : String)
  deriving Repr, DecidableEq

/-- One entry of the `pendingApprovals` map of `SlackHandler` (part_003):
everything stored alongside the `resolve` continuation. -/
structure PendingRecord where
  messageTs : Nat
  channel : String
  threadTs : String
  input : ToolInput
  sessionKey : String
  deriving Repr, DecidableEq

/-- The approval-gate state: the `pendingApprovals` map keyed by approval
id, plus the log of resolutions invoked so far (each `resolve(...)` call
appends one entry; the log embeds the one-shot continuations). -/
structure GateState where
  pendingApprovals : String → Option PendingRecord
  resolutions : List (String × PermissionResponse)

/-- A gate with no pending approvals and no resolutions. -/
def emptyGate : GateState :=
  { pendingApprovals := fun _ => none, resolutions := [] }

/-- Outcome of one `permissionRequest` call: either resolved on the spot,
or suspended pending an approval record. -/
inductive RequestOutcome where
  | immediate (response : PermissionResponse)
  | pendingApproval (approvalId : String)
  deriving Repr, DecidableEq

/-- Everything a `permissionRequest` call produces: the new gate state, the
outcome, the Slack calls issued, and whether a deadline timer was started. -/
structure RequestResult where
  state : GateState
  outcome : RequestOutcome
  effects : List SlackEffect
  timerStarted : Bool

/-- The permission handler returned by `createPermissionHandler`
(part_003): allow-listed tools resolve immediately with the original input;
otherwise an approval prompt is posted, and on success a pending record is
registered under a fresh `approvalId` and the 55-second deadline timer is
started (a post that yields no `ts` resolves to an immediate deny). -/
def permissionRequest (st : GateState) (allowedTools : List (List Char))
    (toolName : List Char) (input : ToolInput)
    (channel threadTs sessionKey approvalId : String) (postTs : Option Nat) :
    RequestResult :=
  if isToolAllowed allowedTools toolName input then
    { state := st
      outcome := .immediate (.allow input)
      effects := []
      timerStarted := false }
  else
    let promptText := "Permission request for " ++ String.mk toolName
    match postTs with
    | none =>
      { state := st
        outcome := .immediate (.deny "Failed to request permission")
        effects := [SlackEffect.postMessage channel threadTs promptText (some [])]
        timerStarted := false }
    | some ts =>
      { state := { st with
          pendingApprovals := mapSet st.pendingApprovals approvalId
            { messageTs := ts, channel := channel, threadTs := threadTs,
              input := input, sessionKey := sessionKey } }
        outcome := .pendingApproval approvalId
        effects := [SlackEffect.postMessage channel threadTs promptText (some [])]
        timerStarted := true }

/-- The Slack action body delivered to `approve_tool` / `deny_tool`: the
handlers read only `actions[0].value` (the approval id); everything else in
the interaction payload is carried opaquely in `payload`. -/
structure ActionBody where
  value : String
  payload : List (String × String)
  deriving Repr, DecidableEq

/-- One of the three events that can terminate a pending approval
(part_003): the `approve_tool` action, the `deny_tool` action, or the
deadline timer firing (whose closure captured the channel, thread and
prompt `ts` of the request). -/
inductive Terminator where
  | approve (body : ActionBody)
  | deny (body : ActionBody)
  | timeout (approvalId : String) (channel : String) (threadTs : String) (msgTs : Nat)
  deriving Repr, DecidableEq

/-- The approval id a terminator refers to. -/
def Terminator.targetId : Terminator → String
  | .approve body => body.value
  | .deny body => body.value
  | .timeout approvalId _ _ _ => approvalId

/-- The resolution a terminator delivers when it finds record `r` pending. -/
def terminatorResolution (t : Terminator) (r : PendingRecord) : PermissionResponse :=
  match t with
  | .approve _ => .allow r.input
  | .deny _ => .deny "User denied this action"
  | .timeout _ _ _ _ => .deny "Permission request timed out"

/-- The three terminator handlers of part_003. Each first looks the id up
in `pendingApprovals` and, when absent, does nothing beyond a log line;
when present it updates/posts the corresponding notices, invokes the
resolution and removes the record. -/
def applyTerminator (st : GateState) (t : Terminator) : GateState × List SlackEffect :=
  match t with
  | .approve body =>
    match st.pendingApprovals body.value with
    | some pending =>
      ({ pendingApprovals := mapDel st.pendingApprovals body.value
         resolutions := st.resolutions ++ [(body.value, .allow pending.input)] },
       [SlackEffect.updateMessage pending.channel pending.messageTs
          "✅ Tool execution approved" (some [])])
    | none => (st, [])
  | .deny body =>
    match st.pendingApprovals body.value with
    | some pending =>
      ({ pendingApprovals := mapDel st.pendingApprovals body.value
         resolutions := st.resolutions ++ [(body.value, .deny "User denied this action")] },
       [SlackEffect.updateMessage pending.channel pending.messageTs
          "❌ Tool execution denied - waiting for your guidance" (some []),
        SlackEffect.postMessage pending.channel pending.threadTs
          "⏸️ Tool cancelled. Please provide guidance on how to proceed." none])
    | none => (st, [])
  | .timeout approvalId channel threadTs msgTs =>
    if (st.pendingApprovals approvalId).isSome then
      ({ pendingApprovals := mapDel st.pendingApprovals approvalId
         resolutions := st.resolutions ++ [(approvalId, .deny "Permission request timed out")] },
       [SlackEffect.updateMessage channel msgTs
          "⏱️ Permission request timed out - waiting for your guidance" (some []),
        SlackEffect.postMessage channel threadTs
          "⏸️ Tool permission timed out. Please provide guidance on how to proceed." none])
    else (st, [])

/-- Apply a sequence of terminator events in order, collecting all Slack
calls issued. -/
def runTerminators (st : GateState) (ts : List Terminator) : GateState × List SlackEffect :=
  match ts with
  | [] => (st, [])
  | t :: rest =>
    let step := applyTerminator st t
    let restRun := runTerminators step.1 rest
    (restRun.1, step.2 ++ restRun.2)

/-- A todo item's lifecycle status (`Todo` of todo-manager, as used by
`updateTaskProgressReaction`). -/
inductive TodoStatus where
  | pending
  | in_progress
  | completed
  deriving Repr, DecidableEq

/-- A todo item, restricted to the fields the progress reaction reads. -/
structure Todo where
  content : String
  status : TodoStatus
  deriving Repr, DecidableEq

/-- The three progress reactions `updateTaskProgressReaction` can pick:
`✅` (all done), `🔄` (in progress), `📋` (pending). -/
inductive ReactionName where
  | whiteCheckMark
  | arrowsCounterclockwise
  | clipboard
  deriving Repr, DecidableEq

/-- The emoji selection of `updateTaskProgressReaction` (part_003): `none`
when the todo list is empty (the function returns without touching the
reaction); otherwise `✅` when every item is completed, else `🔄` when some
item is in progress, else `📋`. -/
def taskProgressEmoji (todos : List Todo) : Option ReactionName :=
  if todos.length = 0 then
    none
  else
    let completed := (todos.filter (fun t => t.status == .completed)).length
    let inProgress := (todos.filter (fun t => t.status == .in_progress)).length
    let total := todos.length
    if completed = total then some .whiteCheckMark
    else if inProgress > 0 then some .arrowsCounterclockwise
    else some .clipboard

/-- The indicator C8 claims, written from the claim's own words for
comparison with `taskProgressEmoji`: done when all completed, active when
zero completed and at least one in progress, pending otherwise, no change
on an empty list. -/
def claimEightIndicator (todos : List Todo) : Option ReactionName :=
  if todos.length = 0 then
    none
  else if todos.all (fun t => t.status == .completed) then some .whiteCheckMark
  else if (todos.all (fun t => !(t.status == .completed)))
          && todos.any (fun t => t.status == .in_progress) then
    some .arrowsCounterclockwise
  else some .clipboard

/-- The indicator as the code computes it, restated structurally (all/any
instead of filter counts): done when all completed, active when not all
completed and at least one in progress, pending otherwise. -/
def amendedEightIndicator (todos : List Todo) : Option ReactionName :=
  if todos.length = 0 then
    none
  else if todos.all (fun t => t.status == .completed) then some .whiteCheckMark
  else if todos.any (fun t => t.status == .in_progress) then some .arrowsCounterclockwise
  else some .clipboard

/-- The per-session cancellation state of `SlackHandler.handleMessage`
(part_003): `activeControllers` maps a session key to the id of its live
`AbortController`; `abortedIds` records every controller that has been
`abort()`ed; `nextId` supplies fresh controller ids. -/
structure CoordState where
  nextId : Nat
  abortedIds : List Nat
  activeControllers : String → Option Nat

/-- A coordinator with no live or aborted controllers. -/
def emptyCoord : CoordState :=
  { nextId := 0, abortedIds := [], activeControllers := fun _ => none }

/-- Predicate `abortController.signal.aborted` for the controller with id `cid`. -/
def isCancelled (st : CoordState) (cid : Nat) : Bool :=
  st.abortedIds.contains cid

/-- The turn-start prologue of `handleMessage` (part_003, lines 230-238):
abort any existing controller for the session, then create a fresh
controller and register it as the session's active one. Returns the new
controller's id (the token the new turn holds). -/
def beginTurn (st : CoordState) (sessionKey : String) : CoordState × Nat :=
  let st1 :=
    match st.activeControllers sessionKey with
    | some oldId => { st with abortedIds := oldId :: st.abortedIds }
    | none => st
  let newId := st1.nextId
  ({ st1 with
       nextId := st1.nextId + 1,
       activeControllers := mapSet st1.activeControllers sessionKey newId },
   newId)

/-- Ids never reused: every id ever handed out (aborted or active) is below
`nextId`. Holds of `emptyCoord` and is preserved by `beginTurn`. -/
def CoordInv (st : CoordState) : Prop :=
  (∀ i ∈ st.abortedIds, i < st.nextId) ∧
  (∀ s i, st.activeControllers s = some i → i < st.nextId)

/-- The typed events streamed by the agent SDK that the event loop of
`handleMessage` consumes (assistant content and terminal result). -/
inductive SDKEvent where
  | assistant (hasToolUse : Bool) (content : String)
  | result (success : Bool) (content : String)
  deriving Repr, DecidableEq

/-- The `for await` loop of `handleMessage`: at the top of every iteration
it checks `abortController.signal.aborted` and breaks before doing anything
with the event; otherwise the event is processed (and only processed
events give rise to renders). Returns the events actually processed. -/
def processedEvents (st : CoordState) (cid : Nat) : List SDKEvent → List SDKEvent
  | [] => []
  | e :: rest =>
    if isCancelled st cid then [] else e :: processedEvents st cid rest

/-- The allow-list pattern `"Bash:" ++ p ++ " *"`. -/
def bashStarPattern (p : List Char) : List Char :=
  bashColonChars ++ p ++ starSuffixChars

/-! Concrete fixtures used by witnesses and counterexamples -/

/-- A sample tool input with no `command` field. -/
def witInput : ToolInput := { command := none, otherFields := [("file_path", "a.ts")] }

/-- A sample pending approval record. -/
def witRecord : PendingRecord :=
  { messageTs := 10, channel := "C", threadTs := "T", input := witInput, sessionKey := "sk" }

/-- A gate holding exactly one pending approval, under id `"a1"`. -/
def witGate : GateState :=
  { emptyGate with pendingApprovals := mapSet emptyGate.pendingApprovals "a1" witRecord }

/-- A `MessageManager` that has rendered one status message (ts 7) for
session `"s"`. -/
def mmWithStatus : MMState :=
  (updateStatus emptyMM { updateOk := true, postTs := some 7, now := 0 } "s" "st0" "C" "T").1

/-- A `MessageManager` that has rendered one tool-output message (ts 100)
for session `"s"`, accumulating the single summary `"t1"`. -/
def mmWithTool : MMState :=
  (updateToolOutput emptyMM { updateOk := true, postTs := some 100, now := 0 } "s" "t1" "C" "T").1

/-- State `mmWithTool` after a text render: the interrupted-by-text flag is set. -/
def mmInterrupted : MMState :=
  (postTextMessage mmWithTool "s" "hello" "C" "T").1

/-- A coordinator in which controller 0 has been aborted. -/
def coordCancelled : CoordState :=
  { nextId := 1, abortedIds := [0], activeControllers := fun _ => none }

/-! Map helper lemmas -/

theorem mapSet_same {α : Type} (m : String → Option α) (k : String) (v : α) :
    mapSet m k v k = some v := by simp [mapSet]

theorem mapDel_same {α : Type} (m : String → Option α) (k : String) :
    mapDel m k k = none := by simp [mapDel]

/-! Claim C4 -/

/-- Claim C4: a sequence of at most 3 accumulated summaries renders as one
full section block with no expand control (3 itself is the full case); a
longer sequence always renders its last 3 entries in full as the final
section, preceded either by the full older entries plus a collapse control
(expanded) or by just a count-carrying expand control (collapsed). -/
theorem buildToolOutputBlocks_spec (st : MMState) (s : String) (accumulated : List String) :
    (accumulated.length ≤ 3 →
      buildToolOutputBlocks st s accumulated =
        ("Tool output", [SlackBlock.sectionBlock (String.intercalate "\n" accumulated)]))
    ∧ (3 < accumulated.length → (st.toolOutputExpanded s).getD false = true →
      buildToolOutputBlocks st s accumulated =
        ("Tool output",
          [SlackBlock.sectionBlock
             (String.intercalate "\n" (accumulated.take (accumulated.length - 3))),
           SlackBlock.actionsBlock "Hide Older Calls" "toggle_tool_history" s,
           SlackBlock.sectionBlock
             (String.intercalate "\n" (accumulated.drop (accumulated.length - 3)))]))
    ∧ (3 < accumulated.length → (st.toolOutputExpanded s).getD false = false →
      buildToolOutputBlocks st s accumulated =
        ("Tool output",
          [SlackBlock.actionsBlock
             ("Show " ++ toString (accumulated.length - 3) ++ " More Tool Calls")
             "toggle_tool_history" s,
           SlackBlock.sectionBlock
             (String.intercalate "\n" (accumulated.drop (accumulated.length - 3)))]))
    ∧ (3 < accumulated.length →
        accumulated.take (accumulated.length - 3) ++ accumulated.drop (accumulated.length - 3)
          = accumulated
        ∧ (accumulated.drop (accumulated.length - 3)).length = 3) := by
  refine ⟨?_, ?_, ?_, ?_⟩
  · intro h
    simp [buildToolOutputBlocks, recentCount, h]
  · intro h hexp
    have hn : ¬ accumulated.length ≤ recentCount := by simp [recentCount]; omega
    simp [buildToolOutputBlocks, hn, hexp, recentCount]
    omega
  · intro h hexp
    have hn : ¬ accumulated.length ≤ recentCount := by simp [recentCount]; omega
    have hl : (accumulated.take (accumulated.length - 3)).length = accumulated.length - 3 := by
      rw [List.length_take]; exact Nat.min_eq_left (by omega)
    simp [buildToolOutputBlocks, hn, hexp, recentCount, hl]
    omega
  · intro h
    refine ⟨List.take_append_drop _ _, ?_⟩
    simp [List.length_drop]; omega

/-- Witness for C4 at concrete inputs: 3 entries render full; 4 entries
render split, collapsed and expanded. -/
theorem buildToolOutputBlocks_spec_witness :
    (buildToolOutputBlocks emptyMM "s" ["a", "b", "c"] =
      ("Tool output", [SlackBlock.sectionBlock "a\nb\nc"]))
    ∧ (buildToolOutputBlocks emptyMM "s" ["a", "b", "c", "d"] =
      ("Tool output",
        [SlackBlock.actionsBlock "Show 1 More Tool Calls" "toggle_tool_history" "s",
         SlackBlock.sectionBlock "b\nc\nd"]))
    ∧ (buildToolOutputBlocks
         { emptyMM with toolOutputExpanded := mapSet emptyMM.toolOutputExpanded "s" true }
         "s" ["a", "b", "c", "d"] =
      ("Tool output",
        [SlackBlock.sectionBlock "a",
         SlackBlock.actionsBlock "Hide Older Calls" "toggle_tool_history" "s",
         SlackBlock.sectionBlock "b\nc\nd"])) := by
  refine ⟨?_, ?_, ?_⟩
  · have := (buildToolOutputBlocks_spec emptyMM "s" ["a", "b", "c"]).1 (by decide)
    rw [this]; rfl
  · have := (buildToolOutputBlocks_spec emptyMM "s" ["a", "b", "c", "d"]).2.2.1
      (by decide) (by decide)
    rw [this]; rfl
  · have := (buildToolOutputBlocks_spec
        { emptyMM with toolOutputExpanded := mapSet emptyMM.toolOutputExpanded "s" true }
        "s" ["a", "b", "c", "d"]).2.1 (by decide) (by decide)
    rw [this]; rfl

/-! Claim C8 -/

/-- Counterexample to C8 as stated: for the task list with one completed
and one in-progress item, the code picks the "active" reaction (`🔄`),
while the claim (active only when zero items are completed) prescribes
"pending" (`📋`). -/
theorem progress_indicator_cex :
    taskProgressEmoji [{ content := "a", status := .completed },
                       { content := "b", status := .in_progress }]
      = some ReactionName.arrowsCounterclockwise
    ∧ claimEightIndicator [{ content := "a", status := .completed },
                           { content := "b", status := .in_progress }]
      = some ReactionName.clipboard
    ∧ ReactionName.arrowsCounterclockwise ≠ ReactionName.clipboard := by
  decide

/-- Amended C8: for a non-empty task list the indicator is "done" when all
items are completed, "active" when not all are completed and at least one
is in progress (regardless of how many are completed), and "pending"
otherwise; the empty list yields no indicator. `taskProgressEmoji` (the
filter-count computation of `updateTaskProgressReaction`) coincides with
this characterization on every input. -/
theorem progress_indicator_characterization (todos : List Todo) :
    taskProgressEmoji todos = amendedEightIndicator todos := by
  unfold taskProgressEmoji amendedEightIndicator
  by_cases h0 : todos.length = 0
  · simp [h0]
  · have hallP : ((todos.filter (fun t => t.status == .completed)).length = todos.length)
        ↔ (∀ a ∈ todos, a.status = TodoStatus.completed) := by
      rw [List.filter_length_eq_length]; simp
    have hanyP : (0 < (todos.filter (fun t => t.status == .in_progress)).length)
        ↔ (∃ a ∈ todos, a.status = TodoStatus.in_progress) := by
      simp [List.length_pos_iff_exists_mem, List.mem_filter]
    simp [h0, hallP, hanyP, List.all_eq_true, List.any_eq_true]

/-! Claim C10 -/

/-- Claim C10: against an allow-list holding the single pattern
`"Bash:" ++ p ++ " *"`, `isToolAllowed` accepts a `Bash` invocation exactly
when its command equals `p` or starts with `p` followed by a space; a
command merely extending `p` without a space boundary (`"gitx status"`
against `"Bash:git *"`) is rejected, and a missing `command` field is
treated as the empty string. -/
theorem bash_star_pattern_characterization :
    (∀ (p cmd : List Char) (other : List (String × String)),
      isToolAllowed [bashStarPattern p] bashToolChars
          { command := some cmd, otherFields := other } = true
        ↔ (cmd = p ∨ (p ++ [' ']) <+: cmd))
    ∧ (∀ (p : List Char) (other : List (String × String)),
      isToolAllowed [bashStarPattern p] bashToolChars
          { command := none, otherFields := other }
        = isToolAllowed [bashStarPattern p] bashToolChars
            { command := some [], otherFields := other })
    ∧ isToolAllowed [bashStarPattern "git".toList] bashToolChars
        { command := some "gitx status".toList, otherFields := [] } = false := by
  have hshape : ∀ p : List Char,
      bashStarPattern p = 'B' :: 'a' :: 's' :: 'h' :: ':' :: (p ++ [' ', '*']) := by
    intro p
    simp [bashStarPattern, bashColonChars, starSuffixChars]
  have hcore : ∀ (p : List Char) (input : ToolInput),
      matchesAllowPattern (bashStarPattern p) bashToolChars input
        = ((p ++ [' ']).isPrefixOf (input.command.getD []) || (input.command.getD []) == p) := by
    intro p input
    rw [matchesAllowPattern, hshape p]
    have h1 : (('B' :: 'a' :: 's' :: 'h' :: ':' :: (p ++ [' ', '*'])) == bashToolChars) = false := by
      simp [bashToolChars]
    have h2 : bashColonChars.isPrefixOf ('B' :: 'a' :: 's' :: 'h' :: ':' :: (p ++ [' ', '*']))
        = true := by
      simp [bashColonChars]
    have h3 : (('B' :: 'a' :: 's' :: 'h' :: ':' :: (p ++ [' ', '*'])) == mcpStarChars) = false := by
      simp [mcpStarChars]
    have h4 : ('B' :: 'a' :: 's' :: 'h' :: ':' :: (p ++ [' ', '*'])).drop 5 = p ++ [' ', '*'] := rfl
    have h5 : starSuffixChars.isSuffixOf (p ++ [' ', '*']) = true := by
      simp [starSuffixChars, List.isSuffixOf_iff_suffix]
    have h6 : (p ++ [' ', '*']).take ((p ++ [' ', '*']).length - 2) = p := by
      have hlen : (p ++ [' ', '*']).length - 2 = p.length := by
        simp
      rw [hlen]
      exact List.take_left p [' ', '*']
    rw [h4] at *
    simp only [h1, h2, h3, h4, h5, h6, Bool.false_or, Bool.or_false, if_pos rfl,
      Bool.true_and, beq_self_eq_true, if_true]
    simp [h5]
  refine ⟨?_, ?_, ?_⟩
  · intro p cmd other
    rw [isToolAllowed, List.any_cons, List.any_nil, Bool.or_false, hcore]
    simp [ List.isPrefixOf_iff_prefix, or_comm]
  · intro p other
    rw [isToolAllowed, List.any_cons, List.any_nil, Bool.or_false, hcore,
       isToolAllowed, List.any_cons, List.any_nil, Bool.or_false, hcore]
    rfl
  · decide

/-! Claim C9 -/

/-- Claim C9: under the freshness invariant, beginning a turn twice for the
same session aborts the first turn's controller before the second turn
starts (the first token reads as cancelled, the second as live, and the
tokens differ), and any event loop holding a cancelled token processes no
further events — `processedEvents` is empty, so no renders are emitted. -/
theorem cancellation_law :
    (∀ (st : CoordState) (s : String),
      CoordInv st →
      isCancelled (beginTurn (beginTurn st s).1 s).1 (beginTurn st s).2 = true
      ∧ isCancelled (beginTurn (beginTurn st s).1 s).1 (beginTurn (beginTurn st s).1 s).2 = false
      ∧ (beginTurn st s).2 ≠ (beginTurn (beginTurn st s).1 s).2)
    ∧ (∀ (st : CoordState) (cid : Nat) (events : List SDKEvent),
      isCancelled st cid = true → processedEvents st cid events = []) := by
  constructor
  · intro st s hinv
    obtain ⟨hinv1, hinv2⟩ := hinv
    cases hac : st.activeControllers s with
    | none =>
      refine ⟨?_, ?_, ?_⟩
      · simp [beginTurn, hac, mapSet, isCancelled]
      · simp [beginTurn, hac, mapSet, isCancelled]
        intro hmem
        exact absurd (hinv1 _ hmem) (by omega)
      · simp [beginTurn, hac, mapSet]
    | some oldId =>
      refine ⟨?_, ?_, ?_⟩
      · simp [beginTurn, hac, mapSet, isCancelled]
      · simp [beginTurn, hac, mapSet, isCancelled]
        constructor
        · have := hinv2 s oldId hac
          omega
        · intro hmem
          exact absurd (hinv1 _ hmem) (by omega)
      · simp [beginTurn, hac, mapSet]
  · intro st cid events hcan
    cases events with
    | nil => rfl
    | cons e rest => simp [processedEvents, hcan]

/-- Witness for C9: from the empty coordinator, two successive turn starts
for session `"s"`; and a loop holding the cancelled token 0 of
`coordCancelled` processes none of two queued events. -/
theorem cancellation_law_witness :
    (CoordInv emptyCoord
     ∧ isCancelled (beginTurn (beginTurn emptyCoord "s").1 "s").1 (beginTurn emptyCoord "s").2
         = true
     ∧ isCancelled (beginTurn (beginTurn emptyCoord "s").1 "s").1
         (beginTurn (beginTurn emptyCoord "s").1 "s").2 = false)
    ∧ (isCancelled coordCancelled 0 = true
       ∧ processedEvents coordCancelled 0
           [SDKEvent.assistant false "hi", SDKEvent.result true "done"] = []) := by
  have hinv : CoordInv emptyCoord := by
    constructor
    · intro i h
      simp [emptyCoord] at h
    · intro s i h
      simp [emptyCoord] at h
  have h1 := cancellation_law.1 emptyCoord "s" hinv
  have h2 := cancellation_law.2 coordCancelled 0
      [SDKEvent.assistant false "hi", SDKEvent.result true "done"] (by decide)
  exact ⟨⟨hinv, h1.1, h1.2.1⟩, ⟨by decide, h2⟩⟩

/-! Claim C5 -/

/-- Claim C5: when `isToolAllowed` matches, the permission handler resolves
immediately with `allow` and the original input; the gate state is
untouched (no pending record registered), no Slack message is posted, and
no deadline timer is started. -/
theorem allow_rule_short_circuit
    (st : GateState) (allowedTools : List (List Char)) (toolName : List Char)
    (input : ToolInput) (channel threadTs sessionKey approvalId : String)
    (postTs : Option Nat)
    (h : isToolAllowed allowedTools toolName input = true) :
    permissionRequest st allowedTools toolName input channel threadTs sessionKey approvalId postTs
      = { state := st
          outcome := .immediate (.allow input)
          effects := []
          timerStarted := false } := by
  simp [permissionRequest, h]

/-- Witness for C5: the tool `Read` with allow-list `["Read"]` resolves
immediately with the original input and no side effects. -/
theorem allow_rule_short_circuit_witness :
    isToolAllowed ["Read".toList] "Read".toList witInput = true
    ∧ permissionRequest witGate ["Read".toList] "Read".toList witInput
        "C" "T" "sk" "a9" (some 42)
      = { state := witGate
          outcome := .immediate (.allow witInput)
          effects := []
          timerStarted := false } :=
  ⟨by decide,
   allow_rule_short_circuit witGate ["Read".toList] "Read".toList witInput
     "C" "T" "sk" "a9" (some 42) (by decide)⟩

/-! Claim C6 -/

/-- Claim C6: an approve action resolves with exactly the tool input
stored in the pending record; the action payload beyond the correlation
id has no influence — two approve bodies with the same id but different
payloads produce identical results, and when a record is pending the
appended resolution carries the stored input. -/
theorem approve_resolves_with_stored_input
    (st : GateState) (b1 b2 : ActionBody) (r : PendingRecord)
    (hval : b1.value = b2.value) :
    applyTerminator st (.approve b1) = applyTerminator st (.approve b2)
    ∧ (st.pendingApprovals b1.value = some r →
       (applyTerminator st (.approve b1)).1.resolutions
         = st.resolutions ++ [(b1.value, .allow r.input)]
       ∧ (applyTerminator st (.approve b1)).1.pendingApprovals b1.value = none) := by
  constructor
  · simp [applyTerminator, hval]
  · intro hp
    simp [applyTerminator, hp, mapDel]

/-- Witness for C6: two approve bodies for id `"a1"`, one with an empty
payload and one smuggling a forged input, yield the same result on
`witGate`, and the resolution carries the stored `witInput`. -/
theorem approve_resolves_with_stored_input_witness :
    (ActionBody.mk "a1" []).value = (ActionBody.mk "a1" [("input", "rm -rf /")]).value
    ∧ witGate.pendingApprovals "a1" = some witRecord
    ∧ applyTerminator witGate (.approve (ActionBody.mk "a1" []))
        = applyTerminator witGate (.approve (ActionBody.mk "a1" [("input", "rm -rf /")]))
    ∧ (applyTerminator witGate (.approve (ActionBody.mk "a1" []))).1.resolutions
        = witGate.resolutions ++ [("a1", .allow witRecord.input)] := by
  have h := approve_resolves_with_stored_input witGate
      (ActionBody.mk "a1" []) (ActionBody.mk "a1" [("input", "rm -rf /")])
      witRecord rfl
  exact ⟨rfl, by decide, h.1, (h.2 (by decide)).1⟩

/-! Claim C2 -/

/-- A terminator whose target id is absent from the pending map leaves the
gate untouched and issues no Slack call. -/
theorem applyTerminator_absent (st : GateState) (t : Terminator)
    (h : st.pendingApprovals t.targetId = none) :
    applyTerminator st t = (st, []) := by
  cases t with
  | approve body => simp [applyTerminator, Terminator.targetId] at h ⊢; simp [h]
  | deny body => simp [applyTerminator, Terminator.targetId] at h ⊢; simp [h]
  | timeout approvalId channel threadTs msgTs =>
    simp [Terminator.targetId] at h
    simp [applyTerminator, h]

/-- A run of terminators all aimed at an id that is no longer pending is a
complete no-op. -/
theorem runTerminators_absent (st : GateState) (id : String) (rest : List Terminator)
    (hall : ∀ t ∈ rest, t.targetId = id) (h : st.pendingApprovals id = none) :
    runTerminators st rest = (st, []) := by
  induction rest with
  | nil => rfl
  | cons t rest ih =>
    have ht : t.targetId = id := hall t (by simp)
    have hstep : applyTerminator st t = (st, []) :=
      applyTerminator_absent st t (by rw [ht]; exact h)
    have hrest : runTerminators st rest = (st, []) :=
      ih (fun t2 h2 => hall t2 (by simp [h2]))
    simp [runTerminators, hstep, hrest]

/-- Claim C2: for a pending approval record, any non-empty sequence of
terminators (approve / deny / timeout) aimed at its id resolves it exactly
once — the first terminator appends the single resolution and removes the
record, the whole run issues only the first terminator's Slack calls, and
in general any terminator finding its id already absent changes nothing
and posts nothing. -/
theorem approval_exactly_once
    (st : GateState) (id : String) (r : PendingRecord)
    (t : Terminator) (rest : List Terminator)
    (hp : st.pendingApprovals id = some r)
    (ht : t.targetId = id)
    (hrest : ∀ t2 ∈ rest, Terminator.targetId t2 = id) :
    (runTerminators st (t :: rest)).1.resolutions
        = st.resolutions ++ [(id, terminatorResolution t r)]
    ∧ (runTerminators st (t :: rest)).1.pendingApprovals id = none
    ∧ (runTerminators st (t :: rest)).2 = (applyTerminator st t).2
    ∧ (∀ (st2 : GateState) (t3 : Terminator),
        st2.pendingApprovals t3.targetId = none → applyTerminator st2 t3 = (st2, [])) := by
  have key : (applyTerminator st t).1.resolutions
        = st.resolutions ++ [(id, terminatorResolution t r)]
      ∧ (applyTerminator st t).1.pendingApprovals id = none := by
    cases t with
    | approve body =>
      have hb : body.value = id := ht
      subst hb
      simp [applyTerminator, hp, terminatorResolution, mapDel]
    | deny body =>
      have hb : body.value = id := ht
      subst hb
      simp [applyTerminator, hp, terminatorResolution, mapDel]
    | timeout approvalId channel threadTs msgTs =>
      have hb : approvalId = id := ht
      subst hb
      simp [applyTerminator, hp, terminatorResolution, mapDel]
  have hrun : runTerminators (applyTerminator st t).1 rest = ((applyTerminator st t).1, []) :=
    runTerminators_absent _ id rest hrest key.2
  refine ⟨?_, ?_, ?_, fun st2 t3 h => applyTerminator_absent st2 t3 h⟩
  · simp [runTerminators, hrun, key.1]
  · simp [runTerminators, hrun, key.2]
  · simp [runTerminators, hrun]

/-- Witness for C2: `witGate` holds record `"a1"`; running an approve
followed by a stray late timeout resolves exactly once (with the stored
input), removes the record, and produces only the approve's message
update — no timeout notice. -/
theorem approval_exactly_once_witness :
    witGate.pendingApprovals "a1" = some witRecord
    ∧ (runTerminators witGate
         [Terminator.approve ⟨"a1", []⟩, Terminator.timeout "a1" "C" "T" 10]).1.resolutions
        = witGate.resolutions
            ++ [("a1", terminatorResolution (Terminator.approve ⟨"a1", []⟩) witRecord)]
    ∧ (runTerminators witGate
         [Terminator.approve ⟨"a1", []⟩,
          Terminator.timeout "a1" "C" "T" 10]).1.pendingApprovals "a1" = none
    ∧ (runTerminators witGate
         [Terminator.approve ⟨"a1", []⟩, Terminator.timeout "a1" "C" "T" 10]).2
        = (applyTerminator witGate (Terminator.approve ⟨"a1", []⟩)).2 := by
  have h := approval_exactly_once witGate "a1" witRecord
      (Terminator.approve ⟨"a1", []⟩) [Terminator.timeout "a1" "C" "T" 10]
      (by decide) rfl (by decide)
  exact ⟨by decide, h.1, h.2.1, h.2.2.1⟩

/-! Claim C7 -/

/-- Helper: a tool-output render with an existing window and no text
interruption updates in place — the registered `ts` is preserved, the flag
is cleared, and the only Slack call is a `chat.update` on the old `ts`. -/
theorem updateToolOutput_inplace
    (st : MMState) (env : RenderEnv) (s tc c th : String) (w : MessageWindow)
    (hw : st.toolOutputMessages s = some w)
    (hflag : (st.textMessageAfterTool s).getD false = false)
    (hupd : env.updateOk = true) :
    (updateToolOutput st env s tc c th).1.toolOutputMessages s
        = some { w with lastUpdated := env.now }
    ∧ (updateToolOutput st env s tc c th).1.textMessageAfterTool s = some false
    ∧ ∃ txt bl, (updateToolOutput st env s tc c th).2
        = [SlackEffect.updateMessage c w.ts txt bl] := by
  simp [updateToolOutput, hw, hflag, hupd, mapSet]

/-- Claim C7: the slot maps are keyed by session, so at most one window is
registered per (session, kind); rendering the same kind twice without
interruption updates the same external reference both times (shown for
status and tool_output); and a text render registers nothing — all three
slot maps are untouched and the posted message's reference is dropped. -/
theorem slot_uniqueness_and_text_transparency
    (st : MMState) (env1 env2 : RenderEnv) (s c th content1 content2 : String)
    (w wt : MessageWindow) :
    (st.statusMessages s = some w → env1.updateOk = true → env2.updateOk = true →
      ((updateStatus (updateStatus st env1 s content1 c th).1 env2 s content2 c th).1.statusMessages
          s).map MessageWindow.ts = some w.ts
      ∧ (updateStatus st env1 s content1 c th).2
          = [SlackEffect.updateMessage c w.ts content1 none]
      ∧ (updateStatus (updateStatus st env1 s content1 c th).1 env2 s content2 c th).2
          = [SlackEffect.updateMessage c w.ts content2 none])
    ∧ (st.toolOutputMessages s = some wt → (st.textMessageAfterTool s).getD false = false →
       env1.updateOk = true → env2.updateOk = true →
      ((updateToolOutput (updateToolOutput st env1 s content1 c th).1 env2 s content2 c
          th).1.toolOutputMessages s).map MessageWindow.ts = some wt.ts
      ∧ (∃ txt bl, (updateToolOutput st env1 s content1 c th).2
          = [SlackEffect.updateMessage c wt.ts txt bl])
      ∧ (∃ txt bl, (updateToolOutput (updateToolOutput st env1 s content1 c th).1 env2 s
            content2 c th).2 = [SlackEffect.updateMessage c wt.ts txt bl]))
    ∧ ((postTextMessage st s content1 c th).1.taskListMessages = st.taskListMessages
      ∧ (postTextMessage st s content1 c th).1.toolOutputMessages = st.toolOutputMessages
      ∧ (postTextMessage st s content1 c th).1.statusMessages = st.statusMessages
      ∧ (postTextMessage st s content1 c th).2
          = [SlackEffect.postMessage c th content1 none]) := by
  refine ⟨?_, ?_, ?_⟩
  · intro hw h1 h2
    refine ⟨?_, ?_, ?_⟩
    · simp [updateStatus, hw, h1, h2, mapSet]
    · simp [updateStatus, hw, h1]
    · simp [updateStatus, hw, h1, h2, mapSet]
  · intro hw hflag h1 h2
    obtain ⟨ha, hb, hc⟩ := updateToolOutput_inplace st env1 s content1 c th wt hw hflag h1
    have hflag2 : ((updateToolOutput st env1 s content1 c th).1.textMessageAfterTool s).getD false
        = false := by rw [hb]; rfl
    obtain ⟨ha2, hb2, hc2⟩ := updateToolOutput_inplace
      (updateToolOutput st env1 s content1 c th).1 env2 s content2 c th
      { wt with lastUpdated := env1.now } ha hflag2 h2
    refine ⟨?_, hc, ?_⟩
    · rw [ha2]; rfl
    · exact hc2
  · exact ⟨rfl, rfl, rfl, rfl⟩

/-- Witness for C7: a second status render on `mmWithStatus` keeps ts 7; a
second and third tool render on `mmWithTool` keep ts 100; a text render on
`mmWithStatus` leaves every slot map unchanged. -/
theorem slot_uniqueness_and_text_transparency_witness :
    mmWithStatus.statusMessages "s" = some { ts := 7, lastUpdated := 0 }
    ∧ ((updateStatus
          (updateStatus mmWithStatus { updateOk := true, postTs := none, now := 1 }
            "s" "c1" "C" "T").1
          { updateOk := true, postTs := none, now := 2 }
          "s" "c2" "C" "T").1.statusMessages "s").map MessageWindow.ts = some 7
    ∧ mmWithTool.toolOutputMessages "s"
        = some { ts := 100, lastUpdated := 0, channel := some "C", threadTs := some "T" }
    ∧ ((updateToolOutput
          (updateToolOutput mmWithTool { updateOk := true, postTs := none, now := 1 }
            "s" "t2" "C" "T").1
          { updateOk := true, postTs := none, now := 2 }
          "s" "t3" "C" "T").1.toolOutputMessages "s").map MessageWindow.ts = some 100
    ∧ (postTextMessage mmWithStatus "s" "txt" "C" "T").1.statusMessages
        = mmWithStatus.statusMessages := by
  have h1 := (slot_uniqueness_and_text_transparency mmWithStatus
      { updateOk := true, postTs := none, now := 1 }
      { updateOk := true, postTs := none, now := 2 }
      "s" "C" "T" "c1" "c2" { ts := 7, lastUpdated := 0 } { ts := 7, lastUpdated := 0 }).1
      (by decide) rfl rfl
  have h2 := (slot_uniqueness_and_text_transparency mmWithTool
      { updateOk := true, postTs := none, now := 1 }
      { updateOk := true, postTs := none, now := 2 }
      "s" "C" "T" "t2" "t3" { ts := 7, lastUpdated := 0 }
      { ts := 100, lastUpdated := 0, channel := some "C", threadTs := some "T" }).2.1
      (by decide) (by decide) rfl rfl
  have h3 := (slot_uniqueness_and_text_transparency mmWithStatus
      { updateOk := true, postTs := none, now := 1 }
      { updateOk := true, postTs := none, now := 2 }
      "s" "C" "T" "txt" "c2" { ts := 7, lastUpdated := 0 } { ts := 7, lastUpdated := 0 }).2.2
  exact ⟨by decide, h1.1, by decide, h2.1, h3.2.2.1⟩

/-! Claim C1 -/

/-- Counterexample to C1 as stated: on `mmInterrupted` (a live tool-output
slot at ts 100 with the interrupted-by-text flag set) the next
`updateToolOutput` issues no `chat.delete` at all — the only external call
is the `chat.postMessage` creating the replacement — so the claimed
deletion of the previous external message does not happen. -/
theorem toolOutput_bump_no_delete_cex :
    (mmInterrupted.toolOutputMessages "s").isSome = true
    ∧ mmInterrupted.textMessageAfterTool "s" = some true
    ∧ (updateToolOutput mmInterrupted { updateOk := true, postTs := some 200, now := 2 }
         "s" "t2" "C" "T").2
        = [SlackEffect.postMessage "C" "T" "Tool output"
             (some [SlackBlock.sectionBlock "t2"])]
    ∧ ((updateToolOutput mmInterrupted { updateOk := true, postTs := some 200, now := 2 }
         "s" "t2" "C" "T").2.filter SlackEffect.isDelete = []) := by
  decide

/-- Amended C1: with a tool-output slot present and the interrupted-by-text
flag set, the next `updateToolOutput` abandons the old external message
(drops its slot record without issuing any external delete), posts a new
external message registered as the new slot, resets the accumulator to
exactly the new summary (length 1), clears the expansion state, and clears
the flag. -/
theorem toolOutput_bump_behavior
    (st : MMState) (env : RenderEnv) (s tc c th : String) (w : MessageWindow) (n : Nat)
    (hw : st.toolOutputMessages s = some w)
    (hflag : st.textMessageAfterTool s = some true)
    (hpost : env.postTs = some n) :
    ((updateToolOutput st env s tc c th).2.filter SlackEffect.isDelete = [])
    ∧ (∃ txt bl, (updateToolOutput st env s tc c th).2
        = [SlackEffect.postMessage c th txt bl])
    ∧ (updateToolOutput st env s tc c th).1.toolOutputMessages s
        = some { ts := n, lastUpdated := env.now, channel := some c, threadTs := some th }
    ∧ (updateToolOutput st env s tc c th).1.accumulatedToolOutput s = some [tc]
    ∧ (updateToolOutput st env s tc c th).1.toolOutputExpanded s = none
    ∧ (updateToolOutput st env s tc c th).1.textMessageAfterTool s = some false := by
  simp [updateToolOutput, hw, hflag, hpost, mapSet, mapDel, SlackEffect.isDelete]

/-- Witness for the amended C1 on `mmInterrupted`. -/
theorem toolOutput_bump_behavior_witness :
    mmInterrupted.toolOutputMessages "s"
        = some { ts := 100, lastUpdated := 0, channel := some "C", threadTs := some "T" }
    ∧ mmInterrupted.textMessageAfterTool "s" = some true
    ∧ (updateToolOutput mmInterrupted { updateOk := true, postTs := some 200, now := 2 }
         "s" "t2" "C" "T").1.toolOutputMessages "s"
        = some { ts := 200, lastUpdated := 2, channel := some "C", threadTs := some "T" }
    ∧ (updateToolOutput mmInterrupted { updateOk := true, postTs := some 200, now := 2 }
         "s" "t2" "C" "T").1.accumulatedToolOutput "s" = some ["t2"] := by
  have h := toolOutput_bump_behavior mmInterrupted
      { updateOk := true, postTs := some 200, now := 2 } "s" "t2" "C" "T"
      { ts := 100, lastUpdated := 0, channel := some "C", threadTs := some "T" } 200
      (by decide) (by decide) rfl
  exact ⟨by decide, by decide, h.2.2.1, h.2.2.2.1⟩

/-! Claim C3 -/

/-- Counterexample to C3 as stated: on `mmWithStatus` (status slot at ts 7)
a failing in-place update issues no `chat.postMessage` — even though a
fresh ts (9) is available from the environment — and the slot keeps its old
reference, so the status kind does not fall back to create-new. -/
theorem update_failure_fallback_cex :
    mmWithStatus.statusMessages "s" = some { ts := 7, lastUpdated := 0 }
    ∧ (updateStatus mmWithStatus { updateOk := false, postTs := some 9, now := 1 }
         "s" "again" "C" "T").2
        = [SlackEffect.updateMessage "C" 7 "again" none]
    ∧ (updateStatus mmWithStatus { updateOk := false, postTs := some 9, now := 1 }
         "s" "again" "C" "T").1.statusMessages "s" = some { ts := 7, lastUpdated := 0 } := by
  decide

/-- Amended C3: only the task_list kind self-heals — on update failure it
posts a new message and re-registers the slot under the new reference; for
the status and tool_output kinds an update failure is only logged: no new
message is created and the slot keeps its old reference (that render's
content is dropped from the external surface). -/
theorem update_failure_fallback_by_kind
    (st : MMState) (env : RenderEnv) (s content c th : String) (w : MessageWindow) (n : Nat) :
    (st.taskListMessages s = some w → env.updateOk = false → env.postTs = some n →
      (updateTaskList st env s content c th).1.taskListMessages s
          = some { ts := n, lastUpdated := env.now }
      ∧ (updateTaskList st env s content c th).2
          = [SlackEffect.updateMessage c w.ts content none,
             SlackEffect.postMessage c th content none])
    ∧ (st.statusMessages s = some w → env.updateOk = false →
      (updateStatus st env s content c th).1 = st
      ∧ (updateStatus st env s content c th).2
          = [SlackEffect.updateMessage c w.ts content none])
    ∧ (st.toolOutputMessages s = some w → (st.textMessageAfterTool s).getD false = false →
       env.updateOk = false →
      (updateToolOutput st env s content c th).1.toolOutputMessages s = some w
      ∧ (∃ txt bl, (updateToolOutput st env s content c th).2
          = [SlackEffect.updateMessage c w.ts txt bl])) := by
  refine ⟨?_, ?_, ?_⟩
  · intro hw hupd hpost
    simp [updateTaskList, hw, hupd, hpost, mapSet]
  · intro hw hupd
    simp [updateStatus, hw, hupd]
  · intro hw hflag hupd
    simp [updateToolOutput, hw, hflag, hupd, mapSet]

/-- Witness for the amended C3: a failing update on a task-list slot (ts 7)
re-registers under the freshly posted ts 9; a failing status update on
`mmWithStatus` keeps ts 7 and posts nothing; a failing tool-output update
on `mmWithTool` keeps ts 100 and posts nothing. -/
theorem update_failure_fallback_by_kind_witness :
    ((updateTaskList
        (updateTaskList emptyMM { updateOk := true, postTs := some 7, now := 0 }
          "s" "todo" "C" "T").1
        { updateOk := false, postTs := some 9, now := 1 }
        "s" "todo2" "C" "T").1.taskListMessages "s" = some { ts := 9, lastUpdated := 1 })
    ∧ (updateStatus mmWithStatus { updateOk := false, postTs := some 9, now := 1 }
         "s" "again" "C" "T").1 = mmWithStatus
    ∧ (updateToolOutput mmWithTool { updateOk := false, postTs := some 9, now := 1 }
         "s" "t2" "C" "T").1.toolOutputMessages "s"
        = some { ts := 100, lastUpdated := 0, channel := some "C", threadTs := some "T" } := by
  have h1 := (update_failure_fallback_by_kind
      (updateTaskList emptyMM { updateOk := true, postTs := some 7, now := 0 } "s" "todo" "C" "T").1
      { updateOk := false, postTs := some 9, now := 1 }
      "s" "todo2" "C" "T" { ts := 7, lastUpdated := 0 } 9).1 (by decide) rfl rfl
  have h2 := (update_failure_fallback_by_kind mmWithStatus
      { updateOk := false, postTs := some 9, now := 1 }
      "s" "again" "C" "T" { ts := 7, lastUpdated := 0 } 9).2.1 (by decide) rfl
  have h3 := (update_failure_fallback_by_kind mmWithTool
      { updateOk := false, postTs := some 9, now := 1 }
      "s" "t2" "C" "T"
      { ts := 100, lastUpdated := 0, channel := some "C", threadTs := some "T" } 9).2.2
      (by decide) (by decide) rfl
  exact ⟨h1.1, h2.1, h3.1⟩

end SlackBot
